import Mathlib

/-!
Verification of the docker-machine vCloud Director driver
(`github.com/juanfont/docker-machine-driver-vcd`).

The repository ships several superseded snapshots of the same driver file.
The embedding below follows the newest internally consistent package:
`driver/helpers.go` (the snapshot defining `newClient`, `vcdSeemsAlive`,
`getVApp`, `getVM`, `getGuestCustomizationScript`) together with the
`vcd.go` variant that calls those helpers (the variant with the
`DeleteWhenFailed` field, the `MIXED`/`UNRESOLVED` status cases and the
two-phase deployment wait).

All calls into the external go-vcloud-director SDK (authentication,
lookups by name, task submission, task waits, refreshes, status reads)
are modelled as oracle fields of explicit environment structures: each
field records the outcome the control plane would return for that call.
Driver methods become pure functions of the driver record and such an
environment, returning the Go result, the updated driver record (the
receiver is mutated in Go), and the ordered list of control-plane
actions performed.
-/

deriving instance DecidableEq for Except

namespace VcdDriver

/-- `types.NetworkConnection`: the two address fields read by `GetIP`.
An empty string models the Go zero value / absent address. -/
structure NetworkConnection where
  ExternalIPAddress : String
  IPAddress : String
deriving Repr, DecidableEq

/-- A child-VM reference inside `VApp.Children.VM`. -/
structure VMChild where
  HREF : String
deriving Repr, DecidableEq

/-- The slice of a `govcd.VApp` the driver reads: its HREF and the
children VM references. -/
structure VApp where
  HREF : String
  children : List VMChild
deriving Repr, DecidableEq

/-- The slice of a `govcd.VM` the driver reads: HREF, name, whether
`VmSpecSection` is non-nil, and `NetworkConnectionSection` (`none`
models a nil section, `some ns` a section with connection list `ns`). -/
structure VMObj where
  HREF : String
  name : String
  specPresent : Bool
  networkSection : Option (List NetworkConnection)
deriving Repr, DecidableEq

/-- A `types.Reference` to a storage profile, identified by name. -/
structure StorageRef where
  name : String
deriving Repr, DecidableEq

/-- The slice of a `govcd.Vdc` the driver reads in `Create`:
`Vdc.VdcStorageProfiles.VdcStorageProfile`. -/
structure VdcInfo where
  storageProfiles : List StorageRef
deriving Repr, DecidableEq

/-- `state.State` values produced by the driver (`state.Running`,
`state.Stopped`, `state.Error`, `state.None` from docker-machine). -/
inductive MachineState
  | Running
  | Stopped
  | Error
  | None
deriving Repr, DecidableEq

/-- The `Driver` struct of the authoritative `vcd.go` variant (the one
with `DeleteWhenFailed`), flattened together with the embedded
`BaseDriver` fields it uses (`MachineName`, `SSHUser`, `SSHPort`).
`VcdURL` holds the parsed URL as a string (empty: not yet set). -/
structure Driver where
  MachineName : String
  VcdURL : String
  VcdOrg : String
  VcdVdc : String
  VcdInsecure : Bool
  VcdUser : String
  VcdPassword : String
  VcdOrgVDCNetwork : String
  Catalog : String
  Template : String
  DockerPort : Int
  SSHUser : String
  SSHPort : Int
  NumCpus : Int
  CoresPerSocket : Int
  MemorySizeMb : Int
  VAppHREF : String
  VMHREF : String
  Description : String
  StorageProfile : String
  DeleteWhenFailed : Bool
deriving Repr, DecidableEq

/-- Control-plane calls the driver performs, in order.  Task waits are
recorded as `waitTask`; task submissions carry what they submit. -/
inductive Action
  | authenticate
  | lookupOrg
  | lookupVdc
  | lookupNetwork
  | lookupCatalog
  | lookupCatalogItem
  | lookupVAppTemplate
  | findStorageProfile (name : String)
  | composeVApp (profileName : String)
  | getVAppByName (name : String)
  | refreshVApp (href : String)
  | refreshVM (href : String)
  | updateVmSpec
  | updateNetwork
  | setGuestCustomization
  | powerOn
  | powerOff
  | shutdown
  | reboot
  | deleteVApp
  | waitTask
deriving Repr, DecidableEq

/-- Oracle outcomes for the control-plane calls made by the helper layer
(`newClient`, org/VDC lookups, `GetVAppByName`, refresh-by-HREF).
Refreshes take the HREF being refreshed so distinct handles may resolve
differently. -/
structure HelperEnv where
  auth : Except String Unit
  org : Except String Unit
  vdc : Except String Unit
  vappByName : Except String VApp
  refreshVAppByHref : String → Except String VApp
  refreshVMByHref : String → Except String VMObj

/-- `Driver.getVApp` from `helpers.go`: create a client; if `VAppHREF`
is non-empty refresh that HREF directly ("this is way quicker"),
otherwise resolve org → VDC → vApp by machine name and write the found
HREF back into `d.VAppHREF`. -/
def getVApp (d : Driver) (env : HelperEnv) : Except String VApp × Driver × List Action :=
  match env.auth with
  | .error e => (.error e, d, [Action.authenticate])
  | .ok _ =>
    if d.VAppHREF ≠ "" then
      match env.refreshVAppByHref d.VAppHREF with
      | .error e => (.error e, d, [Action.authenticate, Action.refreshVApp d.VAppHREF])
      | .ok vapp => (.ok vapp, d, [Action.authenticate, Action.refreshVApp d.VAppHREF])
    else
      match env.org with
      | .error e => (.error e, d, [Action.authenticate, Action.lookupOrg])
      | .ok _ =>
        match env.vdc with
        | .error e => (.error e, d, [Action.authenticate, Action.lookupOrg, Action.lookupVdc])
        | .ok _ =>
          match env.vappByName with
          | .error e =>
              (.error e, d,
                [Action.authenticate, Action.lookupOrg, Action.lookupVdc,
                 Action.getVAppByName d.MachineName])
          | .ok vapp =>
              (.ok vapp, { d with VAppHREF := vapp.HREF },
                [Action.authenticate, Action.lookupOrg, Action.lookupVdc,
                 Action.getVAppByName d.MachineName])

/-- `Driver.getVM` from `helpers.go`: create a client; if `VMHREF` is
non-empty refresh that HREF directly, otherwise resolve the vApp via
`getVApp` (which creates a second client), require exactly one child VM,
refresh it and write its HREF back into `d.VMHREF`. -/
def getVM (d : Driver) (env : HelperEnv) : Except String VMObj × Driver × List Action :=
  match env.auth with
  | .error e => (.error e, d, [Action.authenticate])
  | .ok _ =>
    if d.VMHREF ≠ "" then
      match env.refreshVMByHref d.VMHREF with
      | .error e => (.error e, d, [Action.authenticate, Action.refreshVM d.VMHREF])
      | .ok vm => (.ok vm, d, [Action.authenticate, Action.refreshVM d.VMHREF])
    else
      match getVApp d env with
      | (.error e, d1, a) => (.error e, d1, Action.authenticate :: a)
      | (.ok vapp, d1, a) =>
        if vapp.children.length ≠ 1 then
          (.error "VM count != 1", d1, Action.authenticate :: a)
        else
          match vapp.children with
          | [] => (.error "VM count != 1", d1, Action.authenticate :: a)
          | c :: _ =>
            match env.refreshVMByHref c.HREF with
            | .error e =>
                (.error e, d1, (Action.authenticate :: a) ++ [Action.refreshVM c.HREF])
            | .ok vm =>
                (.ok vm, { d1 with VMHREF := vm.HREF },
                  (Action.authenticate :: a) ++ [Action.refreshVM c.HREF])

/-- The `switch status` of `Driver.GetState`: the mapping from the
remote vApp status string to the reported `state.State`.  The default
branch only logs a warning and falls through to `state.None`; the
function is total, so no status value can crash it. -/
def stateFromStatus : String → MachineState
  | "POWERED_ON" => MachineState.Running
  | "POWERED_OFF" => MachineState.Stopped
  | "MIXED" => MachineState.Error
  | "UNRESOLVED" => MachineState.Error
  | _ => MachineState.None

/-- `Driver.GetState`: resolve the vApp (errors map to `state.Error`
with the error), read its status (errors likewise), then map the status
string through the switch.  `statusResult` is the oracle outcome of
`vapp.GetStatus()`. -/
def getState (d : Driver) (env : HelperEnv) (statusResult : Except String String) :
    MachineState × Option String × Driver :=
  match getVApp d env with
  | (.error e, d1, _) => (MachineState.Error, some e, d1)
  | (.ok _, d1, _) =>
    match statusResult with
    | .error e => (MachineState.Error, some e, d1)
    | .ok status => (stateFromStatus status, none, d1)

/-- The adapter scan inside `Driver.GetIP`: for each connection in
order, return `ExternalIPAddress` if non-empty, else `IPAddress` if
non-empty, else move to the next connection. -/
def findIP : List NetworkConnection → Option String
  | [] => none
  | n :: rest =>
    if n.ExternalIPAddress ≠ "" then some n.ExternalIPAddress
    else if n.IPAddress ≠ "" then some n.IPAddress
    else findIP rest

/-- `Driver.GetIP`: resolve the VM via `getVM`, then scan
`NetworkConnectionSection.NetworkConnection` with the loop above; a nil
section or an unsuccessful scan yields the could-not-get-public-IP
error. -/
def getIP (d : Driver) (env : HelperEnv) : Except String String × Driver :=
  match getVM d env with
  | (.error e, d1, _) => (.error e, d1)
  | (.ok vm, d1, _) =>
    match vm.networkSection with
    | none => (.error "could not get public IP", d1)
    | some networks =>
      match findIP networks with
      | some ip => (.ok ip, d1)
      | none => (.error "could not get public IP", d1)

/-- `Driver.GetSSHHostname`: literally `return d.GetIP()`. -/
def getSSHHostname (d : Driver) (env : HelperEnv) : Except String String × Driver :=
  getIP d env

/-! ## Lifecycle operations (Start / Stop / Kill / Restart) -/

/-- Oracle outcomes for a single submitted control-plane task: the
submission itself and the subsequent `WaitTaskCompletion`. -/
structure TaskEnv where
  submit : Except String Unit
  wait : Except String Unit
deriving Repr, DecidableEq

/-- `Driver.Start`: resolve the vApp via `getVApp`, submit `PowerOn`,
then block on `WaitTaskCompletion`. -/
def startDriver (d : Driver) (env : HelperEnv) (t : TaskEnv) :
    Except String Unit × Driver × List Action :=
  match getVApp d env with
  | (.error e, d1, a) => (.error e, d1, a)
  | (.ok _, d1, a) =>
    match t.submit with
    | .error e => (.error e, d1, a ++ [Action.powerOn])
    | .ok _ =>
      match t.wait with
      | .error e => (.error e, d1, a ++ [Action.powerOn, Action.waitTask])
      | .ok _ => (.ok (), d1, a ++ [Action.powerOn, Action.waitTask])

/-- `Driver.Stop` ("Stop a host not so gracefully"): resolve the vApp
via `getVApp`, submit `PowerOff` (not `Shutdown`), then block on
`WaitTaskCompletion`. -/
def stopDriver (d : Driver) (env : HelperEnv) (t : TaskEnv) :
    Except String Unit × Driver × List Action :=
  match getVApp d env with
  | (.error e, d1, a) => (.error e, d1, a)
  | (.ok _, d1, a) =>
    match t.submit with
    | .error e => (.error e, d1, a ++ [Action.powerOff])
    | .ok _ =>
      match t.wait with
      | .error e => (.error e, d1, a ++ [Action.powerOff, Action.waitTask])
      | .ok _ => (.ok (), d1, a ++ [Action.powerOff, Action.waitTask])

/-- `Driver.Kill`: resolve the vApp via `getVApp`, submit `PowerOff`,
then block on `WaitTaskCompletion`. -/
def killDriver (d : Driver) (env : HelperEnv) (t : TaskEnv) :
    Except String Unit × Driver × List Action :=
  match getVApp d env with
  | (.error e, d1, a) => (.error e, d1, a)
  | (.ok _, d1, a) =>
    match t.submit with
    | .error e => (.error e, d1, a ++ [Action.powerOff])
    | .ok _ =>
      match t.wait with
      | .error e => (.error e, d1, a ++ [Action.powerOff, Action.waitTask])
      | .ok _ => (.ok (), d1, a ++ [Action.powerOff, Action.waitTask])

/-- `Driver.Restart`: resolve the vApp via `getVApp`, submit `Reboot`,
then block on `WaitTaskCompletion`. -/
def restartDriver (d : Driver) (env : HelperEnv) (t : TaskEnv) :
    Except String Unit × Driver × List Action :=
  match getVApp d env with
  | (.error e, d1, a) => (.error e, d1, a)
  | (.ok _, d1, a) =>
    match t.submit with
    | .error e => (.error e, d1, a ++ [Action.reboot])
    | .ok _ =>
      match t.wait with
      | .error e => (.error e, d1, a ++ [Action.reboot, Action.waitTask])
      | .ok _ => (.ok (), d1, a ++ [Action.reboot, Action.waitTask])

/-! ## Remove -/

/-- Oracle outcomes for the four lookups `vcdSeemsAlive` performs
(`newClient`, `GetOrgByName`, `GetVDCByName`,
`GetOrgVdcNetworkByName`). -/
structure AliveEnv where
  auth : Except String Unit
  org : Except String Unit
  vdc : Except String Unit
  network : Except String Unit

/-- `Driver.vcdSeemsAlive` from `helpers.go`: true iff client creation,
org lookup, VDC lookup and org-VDC-network lookup all succeed. -/
def vcdSeemsAlive (env : AliveEnv) : Bool :=
  match env.auth with
  | .error _ => false
  | .ok _ =>
    match env.org with
    | .error _ => false
    | .ok _ =>
      match env.vdc with
      | .error _ => false
      | .ok _ =>
        match env.network with
        | .error _ => false
        | .ok _ => true

/-- Oracle outcomes for one `Driver.Remove` call: the two potential
`getVApp` invocations, the `vcdSeemsAlive` probe, and the power-off and
delete tasks. -/
structure RemoveEnv where
  env1 : HelperEnv
  aliveEnv : AliveEnv
  env2 : HelperEnv
  powerOffSubmit : Except String Unit
  powerOffWait : Except String Unit
  deleteSubmit : Except String Unit
  deleteWait : Except String Unit

/-- The tail of `Driver.Remove` once a vApp is in hand: submit
`PowerOff` and, only if the submission succeeded, block on its
completion (a submission error is deliberately ignored); then submit
`Delete` and block on its completion. -/
def removeDelete (d : Driver) (env : RemoveEnv) (acc : List Action) :
    Except String Unit × Driver × List Action :=
  match env.powerOffSubmit with
  | .error _ =>
    match env.deleteSubmit with
    | .error e => (.error e, d, acc ++ [Action.powerOff, Action.deleteVApp])
    | .ok _ =>
      match env.deleteWait with
      | .error e => (.error e, d, acc ++ [Action.powerOff, Action.deleteVApp, Action.waitTask])
      | .ok _ => (.ok (), d, acc ++ [Action.powerOff, Action.deleteVApp, Action.waitTask])
  | .ok _ =>
    match env.powerOffWait with
    | .error e => (.error e, d, acc ++ [Action.powerOff, Action.waitTask])
    | .ok _ =>
      match env.deleteSubmit with
      | .error e =>
          (.error e, d, acc ++ [Action.powerOff, Action.waitTask, Action.deleteVApp])
      | .ok _ =>
        match env.deleteWait with
        | .error e =>
            (.error e, d,
              acc ++ [Action.powerOff, Action.waitTask, Action.deleteVApp, Action.waitTask])
        | .ok _ =>
            (.ok (), d,
              acc ++ [Action.powerOff, Action.waitTask, Action.deleteVApp, Action.waitTask])

/-- `Driver.Remove`: try `getVApp`; on failure, if `DeleteWhenFailed`
is unset return the error; otherwise probe `vcdSeemsAlive` — if alive,
retry `getVApp` and treat a second failure as "already deleted"
(return success), while a success proceeds to deletion; if not alive,
return the original error.  With a vApp in hand, power off (ignoring a
submission error) and delete, blocking on each task. -/
def removeDriver (d : Driver) (env : RemoveEnv) :
    Except String Unit × Driver × List Action :=
  match getVApp d env.env1 with
  | (.ok _, d1, a1) => removeDelete d1 env a1
  | (.error e, d1, a1) =>
    if d1.DeleteWhenFailed = false then (.error e, d1, a1)
    else
      if vcdSeemsAlive env.aliveEnv then
        match getVApp d1 env.env2 with
        | (.error _, d2, a2) => (.ok (), d2, a1 ++ a2)
        | (.ok _, d2, a2) => removeDelete d2 env (a1 ++ a2)
      else (.error e, d1, a1)

/-! ## SetConfigFromFlags -/

/-- The `drivers.DriverOptions` interface: flag values looked up by
name, one accessor per type, exactly the three the driver uses. -/
structure DriverOptions where
  str : String → String
  int : String → Int
  bool : String → Bool

/-- Result of `SetConfigFromFlags`: the Go error (if any) and the
driver record with whatever assignments had happened by the return. -/
structure SetConfigOutcome where
  err : Option String
  driver : Driver
deriving Repr, DecidableEq

/-- `Driver.SetConfigFromFlags`: read the eight connection options into
the receiver, validate that none is empty (returning the
mandatory-parameters error before anything else happens), then parse
the URL (`url.ParseRequestURI`, modelled by the `parseRequestURI`
oracle) and only then assign the remaining port / sizing / storage /
description / delete-when-failed fields.  The function performs no
control-plane call at all, so it takes no environment. -/
def setConfigFromFlags (d : Driver) (flags : DriverOptions)
    (parseRequestURI : String → Except String String) : SetConfigOutcome :=
  let vcdURL := flags.str ("vcd-url")
  let d1 := { d with
    VcdOrg := flags.str ("vcd-org")
    VcdVdc := flags.str ("vcd-vdc")
    VcdInsecure := flags.bool ("vcd-insecure")
    VcdUser := flags.str ("vcd-user")
    VcdPassword := flags.str ("vcd-password")
    VcdOrgVDCNetwork := flags.str ("vcd-orgvdcnetwork")
    Catalog := flags.str ("vcd-catalog")
    Template := flags.str ("vcd-template") }
  if vcdURL = "" ∨ d1.VcdOrg = "" ∨ d1.VcdVdc = "" ∨ d1.VcdUser = "" ∨
      d1.VcdPassword = "" ∨ d1.VcdOrgVDCNetwork = "" ∨ d1.Catalog = "" ∨
      d1.Template = "" then
    { err := some ("please specify the mandatory parameters: -vcd-url, -vcd-org, -vcd-vdc, -vcd-user, -vcd-password, -vcd-orgvdcnetwork, -catalog, -template")
      driver := d1 }
  else
    match parseRequestURI vcdURL with
    | .error e => { err := some ("unable to pass url: " ++ e), driver := d1 }
    | .ok u =>
      { err := none
        driver := { d1 with
          VcdURL := u
          DockerPort := flags.int ("vcd-docker-port")
          SSHUser := "root"
          SSHPort := flags.int ("vcd-ssh-port")
          NumCpus := flags.int ("vcd-numcpus")
          CoresPerSocket := flags.int ("vcd-corespersocket")
          MemorySizeMb := flags.int ("vcd-memory-size-mb")
          StorageProfile := flags.str ("vcd-storageprofile")
          Description := flags.str ("vcd-description")
          DeleteWhenFailed := flags.bool ("vcd-delete-when-failed") } }

/-! ## Create -/

/-- `firstFrom p i fuel`: index of the first `j` in
`i, i+1, …, i+fuel-1` with `p j`, or `none` if there is none within the
observation bound.  Models an unbounded Go polling loop observed for
`fuel` iterations. -/
def firstFrom (p : Nat → Bool) : Nat → Nat → Option Nat
  | _, 0 => none
  | i, fuel + 1 => if p i then some i else firstFrom p (i + 1) fuel

/-- The deployment-wait goroutine of `Create`: phase one polls
`vm.GetStatus()` every 5 seconds (checks at 0 s, 5 s, …) and leaves the
loop at the first "POWERED_OFF"; phase two polls `vapp.VApp.Tasks`
every 5 seconds and, when it observes nil, sleeps another 15 seconds
and sends on the channel.  (The goroutine's "err" send is dead code:
the `err` variable it tests is necessarily nil there, so the value sent
is always "ok".)  The result is the elapsed time, in seconds, at which
the goroutine signals, or `none` if it has not signalled within the
observation bound. -/
def workerSignalTime (statusAt : Nat → String) (tasksNilAt : Nat → Bool) (fuel : Nat) :
    Option Nat :=
  match firstFrom (fun i => statusAt i == "POWERED_OFF") 0 fuel with
  | none => none
  | some k =>
    match firstFrom tasksNilAt 0 fuel with
    | none => none
    | some j => some (5 * k + 5 * j + 15)

/-- Oracle outcomes for the control-plane calls of `Driver.Create`, in
program order.  `statusAt i` is what `vm.GetStatus()` reports at the
i-th 5-second poll; `tasksNilAt j` is whether `vapp.VApp.Tasks` is nil
at the j-th check of the second wait phase; `pollFuel` bounds the
observation of the (unbounded) polling loops.  `composeWaitAgain` is
the second `task.WaitTaskCompletion()` on the compose task — the line
after `SetGuestCustomizationSection`, whose own error is discarded by
the immediate reassignment of `err`. -/
structure CreateEnv where
  auth : Except String Unit
  org : Except String Unit
  vdc : Except String VdcInfo
  network : Except String Unit
  catalog : Except String Unit
  catalogItem : Except String Unit
  vappTemplate : Except String Unit
  findStorageProfile : String → Except String StorageRef
  composeSubmit : Except String Unit
  composeWait : Except String Unit
  vappByName : Except String VApp
  vmRefresh : Except String VMObj
  statusAt : Nat → String
  tasksNilAt : Nat → Bool
  pollFuel : Nat
  updateVmSpec : Except String VMObj
  guestScript : Except String String
  composeWaitAgain : Except String Unit
  powerOnSubmit : Except String Unit
  powerOnWait : Except String Unit

/-- Result of `Driver.Create`: Go error, updated receiver, performed
control-plane actions in order. -/
structure CreateOutcome where
  result : Except String Unit
  driver : Driver
  actions : List Action
deriving Repr, DecidableEq

/-- `Driver.Create` from the compose submission on, with `sp` the
storage profile resolved beforehand and `acc` the actions already
performed: compose the vApp and wait; fetch it by machine name and
immediately record `d.VAppHREF`; require exactly one child VM; refresh
the child and record `d.VMHREF`; block on the deployment-wait goroutine
against a competing 15-minute (900 s) timer; require a non-nil
`VmSpecSection`; refresh, update hardware spec; update the network
connection section (its error is discarded in the source); build the
guest customization script (SSH key generation may fail); set guest
customization (its error is overwritten by the following wait on the
stale compose task); power the vApp on and wait; finally record both
HREFs again. -/
def createAfterProfile (d : Driver) (env : CreateEnv) (sp : StorageRef)
    (acc : List Action) : CreateOutcome :=
  let a1 := acc ++ [Action.composeVApp sp.name]
  match env.composeSubmit with
  | .error e => ⟨.error e, d, a1⟩
  | .ok _ =>
    let a2 := a1 ++ [Action.waitTask]
    match env.composeWait with
    | .error e => ⟨.error e, d, a2⟩
    | .ok _ =>
      let a3 := a2 ++ [Action.getVAppByName d.MachineName]
      match env.vappByName with
      | .error e => ⟨.error e, d, a3⟩
      | .ok vapp =>
        let d2 := { d with VAppHREF := vapp.HREF }
        if vapp.children.length ≠ 1 then ⟨.error "VM count != 1", d2, a3⟩
        else
          match vapp.children with
          | [] => ⟨.error "VM count != 1", d2, a3⟩
          | c :: _ =>
            let a4 := a3 ++ [Action.refreshVM c.HREF]
            match env.vmRefresh with
            | .error e => ⟨.error e, d2, a4⟩
            | .ok vm =>
              let d3 := { d2 with VMHREF := vm.HREF }
              match workerSignalTime env.statusAt env.tasksNilAt env.pollFuel with
              | none => ⟨.error "reached timeout while deploying VM", d3, a4⟩
              | some t =>
                if 900 < t then ⟨.error "reached timeout while deploying VM", d3, a4⟩
                else
                  if vm.specPresent = false then ⟨.error "VM Spec Section empty", d3, a4⟩
                  else
                    let a5 := a4 ++ [Action.refreshVM vm.HREF, Action.updateVmSpec]
                    match env.updateVmSpec with
                    | .error e => ⟨.error e, d3, a5⟩
                    | .ok vm2 =>
                      let a6 := a5 ++ [Action.updateNetwork]
                      match env.guestScript with
                      | .error e => ⟨.error e, d3, a6⟩
                      | .ok _ =>
                        let a7 := a6 ++ [Action.setGuestCustomization, Action.waitTask]
                        match env.composeWaitAgain with
                        | .error e => ⟨.error e, d3, a7⟩
                        | .ok _ =>
                          let a8 := a7 ++ [Action.powerOn]
                          match env.powerOnSubmit with
                          | .error e => ⟨.error e, d3, a8⟩
                          | .ok _ =>
                            let a9 := a8 ++ [Action.waitTask]
                            match env.powerOnWait with
                            | .error e => ⟨.error e, d3, a9⟩
                            | .ok _ =>
                                ⟨.ok (),
                                  { d3 with VAppHREF := vapp.HREF, VMHREF := vm2.HREF },
                                  a9⟩

/-- `Driver.Create` up to storage-profile resolution: authenticate and
resolve org, VDC, org-VDC network, catalog, catalog item and vApp
template in order, each failure aborting; then resolve the storage
profile — by the configured name when `d.StorageProfile` is non-empty
(failure aborts before any composition), else the VDC's first listed
profile (failing with "No storage profile available" when the VDC has
none) — and continue with `createAfterProfile`. -/
def createDriver (d : Driver) (env : CreateEnv) : CreateOutcome :=
  match env.auth with
  | .error e => ⟨.error e, d, [Action.authenticate]⟩
  | .ok _ =>
    match env.org with
    | .error e => ⟨.error e, d, [Action.authenticate, Action.lookupOrg]⟩
    | .ok _ =>
      match env.vdc with
      | .error e => ⟨.error e, d, [Action.authenticate, Action.lookupOrg, Action.lookupVdc]⟩
      | .ok vi =>
        match env.network with
        | .error e =>
            ⟨.error e, d,
              [Action.authenticate, Action.lookupOrg, Action.lookupVdc, Action.lookupNetwork]⟩
        | .ok _ =>
          match env.catalog with
          | .error e =>
              ⟨.error e, d,
                [Action.authenticate, Action.lookupOrg, Action.lookupVdc,
                 Action.lookupNetwork, Action.lookupCatalog]⟩
          | .ok _ =>
            match env.catalogItem with
            | .error e =>
                ⟨.error e, d,
                  [Action.authenticate, Action.lookupOrg, Action.lookupVdc,
                   Action.lookupNetwork, Action.lookupCatalog, Action.lookupCatalogItem]⟩
            | .ok _ =>
              match env.vappTemplate with
              | .error e =>
                  ⟨.error e, d,
                    [Action.authenticate, Action.lookupOrg, Action.lookupVdc,
                     Action.lookupNetwork, Action.lookupCatalog, Action.lookupCatalogItem,
                     Action.lookupVAppTemplate]⟩
              | .ok _ =>
                let acc :=
                  [Action.authenticate, Action.lookupOrg, Action.lookupVdc,
                   Action.lookupNetwork, Action.lookupCatalog, Action.lookupCatalogItem,
                   Action.lookupVAppTemplate]
                if d.StorageProfile ≠ "" then
                  let acc2 := acc ++ [Action.findStorageProfile d.StorageProfile]
                  match env.findStorageProfile d.StorageProfile with
                  | .error e => ⟨.error e, d, acc2⟩
                  | .ok sp => createAfterProfile d env sp acc2
                else
                  if vi.storageProfiles.length < 1 then
                    ⟨.error "No storage profile available", d, acc⟩
                  else
                    match vi.storageProfiles with
                    | [] => ⟨.error "No storage profile available", d, acc⟩
                    | sp :: _ => createAfterProfile d env sp acc

/-! ## Concrete sample inputs used by witnesses and counterexamples -/

/-- A driver record as produced by `NewDriver` plus a filled-in
configuration (all defaults of the authoritative variant). -/
def dBase : Driver :=
  { MachineName := "machine1"
    VcdURL := "https://vcd.example.com/api"
    VcdOrg := "org1"
    VcdVdc := "vdc1"
    VcdInsecure := false
    VcdUser := "user1"
    VcdPassword := "pw1"
    VcdOrgVDCNetwork := "net1"
    Catalog := "Public"
    Template := "Ubuntu_Server_20.04"
    DockerPort := 2376
    SSHUser := "root"
    SSHPort := 22
    NumCpus := 1
    CoresPerSocket := 1
    MemorySizeMb := 2048
    VAppHREF := ""
    VMHREF := ""
    Description := "Created with Docker Machine"
    StorageProfile := ""
    DeleteWhenFailed := true }

/-- Driver with both remote-object locators already recorded. -/
def dHref : Driver := { dBase with VAppHREF := "vapp-href-a", VMHREF := "vm-href-a" }

/-- A vApp with exactly one child VM. -/
def vappA : VApp := { HREF := "vapp-href-a", children := [{ HREF := "vm-href-a" }] }

/-- A VM whose first adapter has only an internal address and whose
second adapter has an external address. -/
def vmA : VMObj :=
  { HREF := "vm-href-a"
    name := "vm-a"
    specPresent := true
    networkSection :=
      some [{ ExternalIPAddress := "", IPAddress := "10.0.0.1" },
            { ExternalIPAddress := "1.2.3.4", IPAddress := "" }] }

/-- Helper environment in which every control-plane call succeeds. -/
def henvOk : HelperEnv :=
  { auth := .ok ()
    org := .ok ()
    vdc := .ok ()
    vappByName := .ok vappA
    refreshVAppByHref := fun _ => .ok vappA
    refreshVMByHref := fun _ => .ok vmA }

/-- Helper environment whose client creation fails (control plane
unreachable or credentials rejected). -/
def henvDown : HelperEnv :=
  { auth := .error "unable to authenticate to Org"
    org := .error "unable to authenticate to Org"
    vdc := .error "unable to authenticate to Org"
    vappByName := .error "unable to authenticate to Org"
    refreshVAppByHref := fun _ => .error "unable to authenticate to Org"
    refreshVMByHref := fun _ => .error "unable to authenticate to Org" }

/-- A task whose submission and completion both succeed. -/
def tOk : TaskEnv := { submit := .ok (), wait := .ok () }

/-- Reachability-probe environment in which all four probe lookups
succeed. -/
def aliveOk : AliveEnv :=
  { auth := .ok (), org := .ok (), vdc := .ok (), network := .ok () }

/-- Reachability-probe environment whose client creation fails. -/
def aliveDown : AliveEnv :=
  { auth := .error "timeout", org := .error "timeout", vdc := .error "timeout",
    network := .error "timeout" }

/-- Remove environment for a vApp that is already gone: both lookups
fail although the control plane is alive. -/
def renvGone : RemoveEnv :=
  { env1 := henvDown
    aliveEnv := aliveOk
    env2 := henvDown
    powerOffSubmit := .ok ()
    powerOffWait := .ok ()
    deleteSubmit := .ok ()
    deleteWait := .ok () }

/-- Create environment in which every call succeeds, the VDC lists one
storage profile, lookup of a configured profile name fails, and the VM
status poll never observes "POWERED_OFF". -/
def cenvBase : CreateEnv :=
  { auth := .ok ()
    org := .ok ()
    vdc := .ok { storageProfiles := [{ name := "sp1" }] }
    network := .ok ()
    catalog := .ok ()
    catalogItem := .ok ()
    vappTemplate := .ok ()
    findStorageProfile := fun _ => .error "storage profile not found"
    composeSubmit := .ok ()
    composeWait := .ok ()
    vappByName := .ok vappA
    vmRefresh := .ok vmA
    statusAt := fun _ => "POWERED_ON"
    tasksNilAt := fun _ => true
    pollFuel := 3
    updateVmSpec := .ok vmA
    guestScript := .ok "custom-script"
    composeWaitAgain := .ok ()
    powerOnSubmit := .ok ()
    powerOnWait := .ok () }

/-- Create environment whose composed vApp has zero child VMs. -/
def cenvNoChild : CreateEnv :=
  { cenvBase with vappByName := .ok { HREF := "vapp-href-a", children := [] } }

/-- Flag set in which every option is empty/zero. -/
def flagsEmpty : DriverOptions :=
  { str := fun _ => "", int := fun _ => 0, bool := fun _ => false }

/-- URL-parse oracle that accepts every string unchanged. -/
def parseId : String → Except String String := fun s => .ok s

/-! ## Helper lemmas -/

/-- If the adapter scan is given only connections with both address
fields empty, it finds nothing. -/
theorem findIP_all_empty (ns : List NetworkConnection)
    (h : ∀ n ∈ ns, n.ExternalIPAddress = "" ∧ n.IPAddress = "") :
    findIP ns = none := by
  induction ns with
  | nil => rfl
  | cons n rest ih =>
    have hn := h n (by simp)
    simp only [findIP, hn.1, hn.2]
    simp only [ne_eq, not_true_eq_false, if_false, ite_self]
    exact ih (fun m hm => h m (by simp [hm]))

/-- The adapter scan returns, from the first connection that has any
address, the external address if present and the internal one
otherwise. -/
theorem findIP_first (pre : List NetworkConnection) (n : NetworkConnection)
    (post : List NetworkConnection)
    (hpre : ∀ m ∈ pre, m.ExternalIPAddress = "" ∧ m.IPAddress = "")
    (hn : n.ExternalIPAddress ≠ "" ∨ n.IPAddress ≠ "") :
    findIP (pre ++ n :: post) =
      some (if n.ExternalIPAddress ≠ "" then n.ExternalIPAddress else n.IPAddress) := by
  induction pre with
  | nil =>
    by_cases hext : n.ExternalIPAddress = ""
    · rcases hn with h | h
      · exact absurd hext h
      · simp [findIP, hext, h]
    · simp [findIP, hext]
  | cons m rest ih =>
    have hm := hpre m (by simp)
    simp only [List.cons_append, findIP, hm.1, hm.2]
    simp only [ne_eq, not_true_eq_false, if_false, ite_self]
    exact ih (fun x hx => hpre x (by simp [hx]))

/-! ## Claim theorems -/

/-- C10: `GetSSHHostname` returns exactly the result of `GetIP`: at the
public interface the two operations are the same function of the driver
state and control-plane responses. -/
theorem getSSHHostname_eq_getIP (d : Driver) (env : HelperEnv) :
    getSSHHostname d env = getIP d env := rfl

/-- C1: whenever the vApp resolves and its status reads successfully,
`GetState` returns `stateFromStatus` of the status string with no
error, and that mapping sends "POWERED_ON" to Running, "POWERED_OFF" to
Stopped, "MIXED" and "UNRESOLVED" to Error, and every other status
string to None; the mapping is a total function, so no status value can
crash it. -/
theorem getState_status_mapping (d : Driver) (env : HelperEnv) (vapp : VApp) (s : String)
    (hok : (getVApp d env).1 = Except.ok vapp) :
    (getState d env (Except.ok s)).1 = stateFromStatus s
    ∧ (getState d env (Except.ok s)).2.1 = none
    ∧ stateFromStatus "POWERED_ON" = MachineState.Running
    ∧ stateFromStatus "POWERED_OFF" = MachineState.Stopped
    ∧ stateFromStatus "MIXED" = MachineState.Error
    ∧ stateFromStatus "UNRESOLVED" = MachineState.Error
    ∧ (s ≠ "POWERED_ON" → s ≠ "POWERED_OFF" → s ≠ "MIXED" → s ≠ "UNRESOLVED" →
        stateFromStatus s = MachineState.None) := by
  rcases hg : getVApp d env with ⟨r, d1, a⟩
  rw [hg] at hok
  simp only at hok
  subst hok
  refine ⟨?_, ?_, rfl, rfl, rfl, rfl, ?_⟩
  · simp [getState, hg]
  · simp [getState, hg]
  · intro h1 h2 h3 h4
    unfold stateFromStatus
    split <;> simp_all

/-- C1 witness: a status string outside the four recognized literals is
mapped to `state.None`. -/
theorem getState_status_mapping_witness :
    (getState dHref henvOk (Except.ok "SOMETHING_ELSE")).1 = MachineState.None := by
  have h := getState_status_mapping dHref henvOk vappA "SOMETHING_ELSE" rfl
  rw [h.1]
  exact h.2.2.2.2.2.2 (by decide) (by decide) (by decide) (by decide)

/-- C2 counterexample: the first adapter carries only the internal
address 10.0.0.1 while the second adapter carries the external address
1.2.3.4; `GetIP` returns 10.0.0.1, not the first external address
present in adapter order. -/
theorem getIP_claim_counterexample :
    vmA.networkSection =
      some [{ ExternalIPAddress := "", IPAddress := "10.0.0.1" },
            { ExternalIPAddress := "1.2.3.4", IPAddress := "" }]
    ∧ (getIP { dBase with VMHREF := "vm-href-a" } henvOk).1 = Except.ok "10.0.0.1"
    ∧ ("10.0.0.1" : String) ≠ "1.2.3.4" :=
  ⟨rfl, rfl, by decide⟩

/-- C2 (amended): `GetIP` scans the adapters in order and returns, from
the first adapter that has any address, its external address if
present, otherwise its internal address — the external-over-internal
preference applies within a single adapter, not across adapters — and
fails with the could-not-get-public-IP error when the adapter section
is nil, the adapter list is empty, or no adapter has any address. -/
theorem getIP_first_address (d : Driver) (env : HelperEnv) (vm : VMObj)
    (hvm : (getVM d env).1 = Except.ok vm) :
    (vm.networkSection = none →
      (getIP d env).1 = Except.error "could not get public IP")
    ∧ (∀ networks, vm.networkSection = some networks →
        ((∀ n ∈ networks, n.ExternalIPAddress = "" ∧ n.IPAddress = "") →
          (getIP d env).1 = Except.error "could not get public IP")
        ∧ (∀ pre n post, networks = pre ++ n :: post →
            (∀ m ∈ pre, m.ExternalIPAddress = "" ∧ m.IPAddress = "") →
            (n.ExternalIPAddress ≠ "" ∨ n.IPAddress ≠ "") →
            (getIP d env).1 =
              Except.ok
                (if n.ExternalIPAddress ≠ "" then n.ExternalIPAddress
                 else n.IPAddress))) := by
  rcases hg : getVM d env with ⟨r, d1, a⟩
  rw [hg] at hvm
  simp only at hvm
  subst hvm
  constructor
  · intro hns
    simp [getIP, hg, hns]
  · intro networks hns
    constructor
    · intro hempty
      simp [getIP, hg, hns, findIP_all_empty networks hempty]
    · intro pre n post hsplit hpre hn
      subst hsplit
      simp [getIP, hg, hns, findIP_first pre n post hpre hn]

/-- C2 witness: on the two-adapter VM above, `GetIP` returns the first
adapter's fallback internal address. -/
theorem getIP_first_address_witness :
    (getIP { dBase with VMHREF := "vm-href-a" } henvOk).1 =
      Except.ok
        (if ("" : String) ≠ "" then ("" : String) else "10.0.0.1") := by
  exact (((getIP_first_address { dBase with VMHREF := "vm-href-a" } henvOk vmA rfl).2
    [{ ExternalIPAddress := "", IPAddress := "10.0.0.1" },
     { ExternalIPAddress := "1.2.3.4", IPAddress := "" }] rfl).2
    [] { ExternalIPAddress := "", IPAddress := "10.0.0.1" }
    [{ ExternalIPAddress := "1.2.3.4", IPAddress := "" }] rfl (by simp)
    (Or.inr (by decide)))

/-- C7: if any of the eight required options (url, org, vdc, user,
password, org-VDC network, catalog, template) is the empty string,
`SetConfigFromFlags` returns the mandatory-parameters error, and the
remaining fields — ports, sizing, storage profile, description,
delete-when-failed, SSH user and the URL — keep their previous values
(the function makes no control-plane call at all: it takes no
environment). -/
theorem setConfig_missing_required (d : Driver) (flags : DriverOptions)
    (parse : String → Except String String)
    (h : flags.str ("vcd-url") = "" ∨ flags.str ("vcd-org") = "" ∨
         flags.str ("vcd-vdc") = "" ∨ flags.str ("vcd-user") = "" ∨
         flags.str ("vcd-password") = "" ∨ flags.str ("vcd-orgvdcnetwork") = "" ∨
         flags.str ("vcd-catalog") = "" ∨ flags.str ("vcd-template") = "") :
    (setConfigFromFlags d flags parse).err =
      some ("please specify the mandatory parameters: -vcd-url, -vcd-org, -vcd-vdc, -vcd-user, -vcd-password, -vcd-orgvdcnetwork, -catalog, -template")
    ∧ (setConfigFromFlags d flags parse).driver.DockerPort = d.DockerPort
    ∧ (setConfigFromFlags d flags parse).driver.SSHPort = d.SSHPort
    ∧ (setConfigFromFlags d flags parse).driver.SSHUser = d.SSHUser
    ∧ (setConfigFromFlags d flags parse).driver.NumCpus = d.NumCpus
    ∧ (setConfigFromFlags d flags parse).driver.CoresPerSocket = d.CoresPerSocket
    ∧ (setConfigFromFlags d flags parse).driver.MemorySizeMb = d.MemorySizeMb
    ∧ (setConfigFromFlags d flags parse).driver.StorageProfile = d.StorageProfile
    ∧ (setConfigFromFlags d flags parse).driver.Description = d.Description
    ∧ (setConfigFromFlags d flags parse).driver.DeleteWhenFailed = d.DeleteWhenFailed
    ∧ (setConfigFromFlags d flags parse).driver.VcdURL = d.VcdURL := by
  unfold setConfigFromFlags
  rw [if_pos (by rcases h with h | h | h | h | h | h | h | h <;> simp [h])]
  exact ⟨rfl, rfl, rfl, rfl, rfl, rfl, rfl, rfl, rfl, rfl, rfl⟩

/-- C7 witness: with every flag empty, configuration fails with the
mandatory-parameters error and the Docker port keeps its prior value. -/
theorem setConfig_missing_required_witness :
    (setConfigFromFlags dBase flagsEmpty parseId).err =
      some ("please specify the mandatory parameters: -vcd-url, -vcd-org, -vcd-vdc, -vcd-user, -vcd-password, -vcd-orgvdcnetwork, -catalog, -template")
    ∧ (setConfigFromFlags dBase flagsEmpty parseId).driver.DockerPort = dBase.DockerPort := by
  have h := setConfig_missing_required dBase flagsEmpty parseId (Or.inl rfl)
  exact ⟨h.1, h.2.1⟩

/-- C8: lifecycle handle resolution — with a stored vApp locator,
`getVApp` performs only client creation and a refresh of exactly that
HREF (no org, VDC or name lookup); with no stored locator it resolves
org → VDC → name and writes the found HREF back into the driver, after
which a further invocation again skips name resolution; `getVM` behaves
the same on the VM locator, falling back to `getVApp` plus the
single-child check, and writes the refreshed VM HREF back. -/
theorem handle_resolution_spec (d : Driver) (env : HelperEnv) :
    (env.auth = Except.ok () → d.VAppHREF ≠ "" →
      (getVApp d env).2.2 = [Action.authenticate, Action.refreshVApp d.VAppHREF]
      ∧ (getVApp d env).2.1.VAppHREF = d.VAppHREF)
    ∧ (∀ vapp, env.auth = Except.ok () → d.VAppHREF = "" → env.org = Except.ok () →
        env.vdc = Except.ok () → env.vappByName = Except.ok vapp →
        (getVApp d env).1 = Except.ok vapp
        ∧ (getVApp d env).2.1.VAppHREF = vapp.HREF
        ∧ (getVApp d env).2.2 =
            [Action.authenticate, Action.lookupOrg, Action.lookupVdc,
             Action.getVAppByName d.MachineName]
        ∧ (vapp.HREF ≠ "" → ∀ env2 : HelperEnv, env2.auth = Except.ok () →
            (getVApp ((getVApp d env).2.1) env2).2.2 =
              [Action.authenticate, Action.refreshVApp vapp.HREF]))
    ∧ (env.auth = Except.ok () → d.VMHREF ≠ "" →
        (getVM d env).2.2 = [Action.authenticate, Action.refreshVM d.VMHREF])
    ∧ (∀ vapp c vm, env.auth = Except.ok () → d.VMHREF = "" →
        (getVApp d env).1 = Except.ok vapp → vapp.children = [c] →
        env.refreshVMByHref c.HREF = Except.ok vm →
        (getVM d env).1 = Except.ok vm ∧ (getVM d env).2.1.VMHREF = vm.HREF) := by
  refine ⟨?_, ?_, ?_, ?_⟩
  · intro hauth hhref
    cases hr : env.refreshVAppByHref d.VAppHREF <;>
      simp [getVApp, hauth, hhref, hr]
  · intro vapp hauth hhref horg hvdc hname
    have hmain :
        getVApp d env =
          (Except.ok vapp, { d with VAppHREF := vapp.HREF },
            [Action.authenticate, Action.lookupOrg, Action.lookupVdc,
             Action.getVAppByName d.MachineName]) := by
      simp [getVApp, hauth, hhref, horg, hvdc, hname]
    refine ⟨by rw [hmain], by rw [hmain], by rw [hmain], ?_⟩
    intro hne env2 hauth2
    rw [hmain]
    cases hr : env2.refreshVAppByHref vapp.HREF <;>
      simp [getVApp, hauth2, hne, hr]
  · intro hauth hhref
    cases hr : env.refreshVMByHref d.VMHREF <;>
      simp [getVM, hauth, hhref, hr]
  · intro vapp c vm hauth hhref hvapp hch hr
    rcases hg : getVApp d env with ⟨rv, d1, a⟩
    rw [hg] at hvapp
    simp only at hvapp
    subst hvapp
    simp [getVM, hauth, hhref, hg, hch, hr]

/-- C8 witness: with both locators stored, `getVApp` performs only
authenticate-and-refresh on the stored vApp HREF. -/
theorem handle_resolution_witness :
    (getVApp dHref henvOk).2.2 =
      [Action.authenticate, Action.refreshVApp dHref.VAppHREF] :=
  ((handle_resolution_spec dHref henvOk).1 rfl (by decide)).1

/-- C5 counterexample: `Stop` and `Kill` are the same function — on any
input (here a concrete one) Stop submits the power-off task, never the
graceful-shutdown task, so "Stop and Kill submit different tasks" is
false. -/
theorem stop_shutdown_counterexample :
    stopDriver dHref henvOk tOk = killDriver dHref henvOk tOk
    ∧ Action.powerOff ∈ (stopDriver dHref henvOk tOk).2.2
    ∧ Action.shutdown ∉ (stopDriver dHref henvOk tOk).2.2 :=
  ⟨rfl, by decide, by decide⟩

/-- C5 (amended): each lifecycle operation resolves the vApp handle and
submits its control-plane task, blocking on task completion — `Start`
submits power-on and `Restart` submits reboot, but `Stop` submits
power-off (deliberately: "Stop a host not so gracefully"), the same
task as `Kill`; the operation's result is the task-wait outcome. -/
theorem lifecycle_tasks_spec (d : Driver) (env : HelperEnv) (t : TaskEnv) (vapp : VApp)
    (hv : (getVApp d env).1 = Except.ok vapp) (hs : t.submit = Except.ok ()) :
    (startDriver d env t).2.2 = (getVApp d env).2.2 ++ [Action.powerOn, Action.waitTask]
    ∧ (stopDriver d env t).2.2 = (getVApp d env).2.2 ++ [Action.powerOff, Action.waitTask]
    ∧ (killDriver d env t).2.2 = (getVApp d env).2.2 ++ [Action.powerOff, Action.waitTask]
    ∧ (restartDriver d env t).2.2 = (getVApp d env).2.2 ++ [Action.reboot, Action.waitTask]
    ∧ (startDriver d env t).1 = t.wait
    ∧ (stopDriver d env t).1 = t.wait
    ∧ (killDriver d env t).1 = t.wait
    ∧ (restartDriver d env t).1 = t.wait
    ∧ stopDriver d env t = killDriver d env t := by
  rcases hg : getVApp d env with ⟨r, d1, a⟩
  rw [hg] at hv
  simp only at hv
  subst hv
  cases hw : t.wait with
  | error e =>
    simp [startDriver, stopDriver, killDriver, restartDriver, hg, hs, hw]
  | ok u =>
    cases u
    simp [startDriver, stopDriver, killDriver, restartDriver, hg, hs, hw]

/-- C5 witness: with all calls succeeding, Stop's action trail ends in
the power-off submission and its wait. -/
theorem lifecycle_tasks_witness :
    (stopDriver dHref henvOk tOk).2.2 =
      (getVApp dHref henvOk).2.2 ++ [Action.powerOff, Action.waitTask] :=
  (lifecycle_tasks_spec dHref henvOk tOk vappA rfl rfl).2.1

/-- A failed `getVApp` leaves the driver record unchanged: the HREF
write-back happens only on the successful name-lookup path. -/
theorem getVApp_error_driver (d : Driver) (env : HelperEnv) (e : String)
    (h : (getVApp d env).1 = Except.error e) : (getVApp d env).2.1 = d := by
  unfold getVApp at h ⊢
  cases ha : env.auth with
  | error e2 => simp [ha]
  | ok u =>
    by_cases hh : d.VAppHREF ≠ ""
    · cases hr : env.refreshVAppByHref d.VAppHREF <;> simp [ha, hh, hr]
    · cases ho : env.org with
      | error e2 => simp [ha, hh, ho]
      | ok u2 =>
        cases hv : env.vdc with
        | error e2 => simp [ha, hh, ho, hv]
        | ok u3 =>
          cases hb : env.vappByName with
          | error e2 => simp [ha, hh, ho, hv, hb]
          | ok vapp => simp [ha, hh, ho, hv, hb] at h

/-- `getVApp` never submits a power-off or delete task: its action
trail holds only client creation, lookups and refreshes. -/
theorem getVApp_no_task_actions (d : Driver) (env : HelperEnv) :
    Action.powerOff ∉ (getVApp d env).2.2 ∧ Action.deleteVApp ∉ (getVApp d env).2.2 := by
  unfold getVApp
  cases ha : env.auth with
  | error e2 => simp [ha]
  | ok u =>
    by_cases hh : d.VAppHREF ≠ ""
    · cases hr : env.refreshVAppByHref d.VAppHREF <;> simp [ha, hh, hr]
    · cases ho : env.org with
      | error e2 => simp [ha, hh, ho]
      | ok u2 =>
        cases hv : env.vdc with
        | error e2 => simp [ha, hh, ho, hv]
        | ok u3 =>
          cases hb : env.vappByName with
          | error e2 => simp [ha, hh, ho, hv, hb]
          | ok vapp => simp [ha, hh, ho, hv, hb]

/-- C4: when the vApp lookup in `Remove` fails — with the delete-when-
failed policy disabled, `Remove` returns the lookup error; with the
policy enabled and the reachability probe confirming the control plane
alive, a second failed lookup makes `Remove` return success without
submitting any power-off or delete task; with the control plane
unreachable, `Remove` returns the original lookup error. -/
theorem remove_lookup_failure_spec (d : Driver) (env : RemoveEnv) (e : String)
    (h1 : (getVApp d env.env1).1 = Except.error e) :
    (d.DeleteWhenFailed = false → (removeDriver d env).1 = Except.error e)
    ∧ (d.DeleteWhenFailed = true → vcdSeemsAlive env.aliveEnv = true →
        ∀ e2, (getVApp d env.env2).1 = Except.error e2 →
        (removeDriver d env).1 = Except.ok ()
        ∧ Action.powerOff ∉ (removeDriver d env).2.2
        ∧ Action.deleteVApp ∉ (removeDriver d env).2.2)
    ∧ (d.DeleteWhenFailed = true → vcdSeemsAlive env.aliveEnv = false →
        (removeDriver d env).1 = Except.error e) := by
  have hd1 := getVApp_error_driver d env.env1 e h1
  have hna1 := getVApp_no_task_actions d env.env1
  rcases hg1 : getVApp d env.env1 with ⟨r1, d1, a1⟩
  rw [hg1] at h1 hd1 hna1
  simp only at h1 hd1 hna1
  subst h1
  subst d1
  refine ⟨?_, ?_, ?_⟩
  · intro hdwf
    simp [removeDriver, hg1, hdwf]
  · intro hdwf halive e2 h2
    have hna2 := getVApp_no_task_actions d env.env2
    rcases hg2 : getVApp d env.env2 with ⟨r2, d2, a2⟩
    rw [hg2] at h2 hna2
    simp only at h2 hna2
    subst h2
    refine ⟨?_, ?_, ?_⟩
    · simp [removeDriver, hg1, hg2, hdwf, halive]
    · simp only [removeDriver, hg1, hg2, hdwf, halive]
      simp [List.mem_append, hna1.1, hna2.1]
    · simp only [removeDriver, hg1, hg2, hdwf, halive]
      simp [List.mem_append, hna1.2, hna2.2]
  · intro hdwf halive
    simp [removeDriver, hg1, hdwf, halive]

/-- C4 witness: with the policy enabled, the probe succeeding and both
lookups failing, `Remove` reports success. -/
theorem remove_lookup_failure_witness :
    (removeDriver dBase renvGone).1 = Except.ok () :=
  ((remove_lookup_failure_spec dBase renvGone "unable to authenticate to Org" rfl).2.1
    rfl rfl "unable to authenticate to Org" rfl).1

/-- `firstFrom` finds the first index satisfying the predicate: the
found index satisfies it and every earlier index in the scanned range
does not. -/
theorem firstFrom_spec (p : Nat → Bool) :
    ∀ fuel i k, firstFrom p i fuel = some k →
      p k = true ∧ ∀ j, i ≤ j → j < k → p j = false := by
  intro fuel
  induction fuel with
  | zero =>
    intro i k h
    simp [firstFrom] at h
  | succ n ih =>
    intro i k h
    unfold firstFrom at h
    by_cases hp : p i
    · rw [if_pos hp] at h
      injection h with h
      subst h
      exact ⟨hp, fun j hij hjk => absurd hjk (Nat.not_lt.mpr hij)⟩
    · rw [if_neg hp] at h
      have hres := ih (i + 1) k h
      refine ⟨hres.1, fun j hij hjk => ?_⟩
      rcases Nat.eq_or_lt_of_le hij with heq | hlt
      · subst heq
        simpa using hp
      · exact hres.2 j hlt hjk

/-- When every lookup preceding storage-profile resolution succeeds and
no profile name is configured, `Create` proceeds with the VDC's first
listed profile. -/
theorem createDriver_eq_afterProfile (d : Driver) (env : CreateEnv) (vi : VdcInfo)
    (sp : StorageRef) (rest : List StorageRef)
    (hauth : env.auth = Except.ok ()) (horg : env.org = Except.ok ())
    (hvdc : env.vdc = Except.ok vi) (hnet : env.network = Except.ok ())
    (hcat : env.catalog = Except.ok ()) (hitem : env.catalogItem = Except.ok ())
    (htpl : env.vappTemplate = Except.ok ())
    (hsp : d.StorageProfile = "") (hprof : vi.storageProfiles = sp :: rest) :
    createDriver d env =
      createAfterProfile d env sp
        [Action.authenticate, Action.lookupOrg, Action.lookupVdc, Action.lookupNetwork,
         Action.lookupCatalog, Action.lookupCatalogItem, Action.lookupVAppTemplate] := by
  simp [createDriver, hauth, horg, hvdc, hnet, hcat, hitem, htpl, hsp, hprof]

/-- Whatever the downstream outcomes, once a storage profile is
resolved the compose submission for that profile is performed. -/
theorem createAfterProfile_compose_mem (d : Driver) (env : CreateEnv) (sp : StorageRef)
    (acc : List Action) :
    Action.composeVApp sp.name ∈ (createAfterProfile d env sp acc).actions := by
  simp only [createAfterProfile]
  repeat' split
  all_goals simp [List.mem_append]

/-- `Create` with a composed vApp whose child count differs from one:
the exact outcome, including the already-recorded vApp HREF. -/
theorem createAfterProfile_count_error (d : Driver) (env : CreateEnv) (sp : StorageRef)
    (acc : List Action) (vapp : VApp)
    (hcs : env.composeSubmit = Except.ok ()) (hcw : env.composeWait = Except.ok ())
    (hv : env.vappByName = Except.ok vapp) (hcount : vapp.children.length ≠ 1) :
    createAfterProfile d env sp acc =
      ⟨Except.error "VM count != 1", { d with VAppHREF := vapp.HREF },
        acc ++ [Action.composeVApp sp.name, Action.waitTask,
                Action.getVAppByName d.MachineName]⟩ := by
  simp [createAfterProfile, hcs, hcw, hv, hcount]

/-- `Create` when the deployment-wait goroutine does not signal within
the 15-minute deadline: the exact timeout outcome. -/
theorem createAfterProfile_timeout (d : Driver) (env : CreateEnv) (sp : StorageRef)
    (acc : List Action) (vapp : VApp) (c : VMChild) (vm : VMObj)
    (hcs : env.composeSubmit = Except.ok ()) (hcw : env.composeWait = Except.ok ())
    (hv : env.vappByName = Except.ok vapp) (hch : vapp.children = [c])
    (hvm : env.vmRefresh = Except.ok vm)
    (hto : workerSignalTime env.statusAt env.tasksNilAt env.pollFuel = none ∨
           ∃ t, workerSignalTime env.statusAt env.tasksNilAt env.pollFuel = some t ∧ 900 < t) :
    createAfterProfile d env sp acc =
      ⟨Except.error "reached timeout while deploying VM",
        { d with VAppHREF := vapp.HREF, VMHREF := vm.HREF },
        acc ++ [Action.composeVApp sp.name, Action.waitTask,
                Action.getVAppByName d.MachineName, Action.refreshVM c.HREF]⟩ := by
  rcases hto with hto | ⟨t, hto, hgt⟩
  · simp [createAfterProfile, hcs, hcw, hv, hch, hvm, hto]
  · simp [createAfterProfile, hcs, hcw, hv, hch, hvm, hto, hgt]

/-- C6: with the lookups preceding storage-profile resolution all
succeeding — if a profile name is configured, `Create` looks up exactly
that name, and on failure returns the lookup error having submitted no
composition; if no name is configured and the VDC lists no profile,
`Create` fails with "No storage profile available", again composing
nothing; if no name is configured and profiles exist, the composition
is submitted with the first listed profile. -/
theorem create_storage_profile_spec (d : Driver) (env : CreateEnv) (vi : VdcInfo)
    (hauth : env.auth = Except.ok ()) (horg : env.org = Except.ok ())
    (hvdc : env.vdc = Except.ok vi) (hnet : env.network = Except.ok ())
    (hcat : env.catalog = Except.ok ()) (hitem : env.catalogItem = Except.ok ())
    (htpl : env.vappTemplate = Except.ok ()) :
    (∀ e, d.StorageProfile ≠ "" →
      env.findStorageProfile d.StorageProfile = Except.error e →
      (createDriver d env).result = Except.error e
      ∧ Action.findStorageProfile d.StorageProfile ∈ (createDriver d env).actions
      ∧ ∀ p, Action.composeVApp p ∉ (createDriver d env).actions)
    ∧ (d.StorageProfile = "" → vi.storageProfiles = [] →
      (createDriver d env).result = Except.error "No storage profile available"
      ∧ ∀ p, Action.composeVApp p ∉ (createDriver d env).actions)
    ∧ (∀ sp rest, d.StorageProfile = "" → vi.storageProfiles = sp :: rest →
      Action.composeVApp sp.name ∈ (createDriver d env).actions) := by
  refine ⟨?_, ?_, ?_⟩
  · intro e hne hfind
    have hmain :
        createDriver d env =
          ⟨Except.error e, d,
            [Action.authenticate, Action.lookupOrg, Action.lookupVdc, Action.lookupNetwork,
             Action.lookupCatalog, Action.lookupCatalogItem, Action.lookupVAppTemplate,
             Action.findStorageProfile d.StorageProfile]⟩ := by
      simp [createDriver, hauth, horg, hvdc, hnet, hcat, hitem, htpl, hne, hfind]
    rw [hmain]
    refine ⟨rfl, by simp, by intro p; simp⟩
  · intro hsp hnil
    have hmain :
        createDriver d env =
          ⟨Except.error "No storage profile available", d,
            [Action.authenticate, Action.lookupOrg, Action.lookupVdc, Action.lookupNetwork,
             Action.lookupCatalog, Action.lookupCatalogItem,
             Action.lookupVAppTemplate]⟩ := by
      simp [createDriver, hauth, horg, hvdc, hnet, hcat, hitem, htpl, hsp, hnil]
    rw [hmain]
    refine ⟨rfl, by intro p; simp⟩
  · intro sp rest hsp hprof
    rw [createDriver_eq_afterProfile d env vi sp rest hauth horg hvdc hnet hcat hitem htpl
      hsp hprof]
    exact createAfterProfile_compose_mem d env sp _

/-- C6 witness: a configured storage-profile name the VDC does not have
makes `Create` fail with the lookup error after looking up exactly that
name, with no composition submitted. -/
theorem create_storage_profile_witness :
    (createDriver { dBase with StorageProfile := "gold" } cenvBase).result =
      Except.error "storage profile not found"
    ∧ Action.findStorageProfile "gold" ∈
        (createDriver { dBase with StorageProfile := "gold" } cenvBase).actions
    ∧ Action.composeVApp "sp1" ∉
        (createDriver { dBase with StorageProfile := "gold" } cenvBase).actions := by
  have h := (create_storage_profile_spec { dBase with StorageProfile := "gold" } cenvBase
    { storageProfiles := [{ name := "sp1" }] } rfl rfl rfl rfl rfl rfl rfl).1
    "storage profile not found" (by decide) rfl
  exact ⟨h.1, h.2.1, h.2.2 ("sp1")⟩

/-- C3 counterexample: a composition yielding zero child VMs makes
`Create` fail with the count error, but the vApp locator field has
already been recorded on the driver: it is "vapp-href-a", not the empty
string it started as. -/
theorem create_vapphref_counterexample :
    (createDriver dBase cenvNoChild).result = Except.error "VM count != 1"
    ∧ dBase.VAppHREF = ""
    ∧ (createDriver dBase cenvNoChild).driver.VAppHREF = "vapp-href-a"
    ∧ ¬((createDriver dBase cenvNoChild).driver.VAppHREF = "") :=
  ⟨rfl, rfl, rfl, by decide⟩

/-- C3 (amended): a composed vApp with child count other than one makes
`Create` return the composition-count error with the VM locator left
unchanged — but the vApp locator has already been recorded from the
composed vApp before the count check. -/
theorem create_composition_count_spec (d : Driver) (env : CreateEnv) (vi : VdcInfo)
    (sp : StorageRef) (rest : List StorageRef) (vapp : VApp)
    (hauth : env.auth = Except.ok ()) (horg : env.org = Except.ok ())
    (hvdc : env.vdc = Except.ok vi) (hnet : env.network = Except.ok ())
    (hcat : env.catalog = Except.ok ()) (hitem : env.catalogItem = Except.ok ())
    (htpl : env.vappTemplate = Except.ok ())
    (hsp : d.StorageProfile = "") (hprof : vi.storageProfiles = sp :: rest)
    (hcs : env.composeSubmit = Except.ok ()) (hcw : env.composeWait = Except.ok ())
    (hv : env.vappByName = Except.ok vapp) (hcount : vapp.children.length ≠ 1) :
    (createDriver d env).result = Except.error "VM count != 1"
    ∧ (createDriver d env).driver.VMHREF = d.VMHREF
    ∧ (createDriver d env).driver.VAppHREF = vapp.HREF := by
  rw [createDriver_eq_afterProfile d env vi sp rest hauth horg hvdc hnet hcat hitem htpl
      hsp hprof,
    createAfterProfile_count_error d env sp _ vapp hcs hcw hv hcount]
  exact ⟨rfl, rfl, rfl⟩

/-- C3 witness (amended claim): on the zero-children composition the
count error is returned, the VM locator is untouched and the vApp
locator holds the composed vApp's HREF. -/
theorem create_composition_count_witness :
    (createDriver dBase cenvNoChild).result = Except.error "VM count != 1"
    ∧ (createDriver dBase cenvNoChild).driver.VMHREF = dBase.VMHREF
    ∧ (createDriver dBase cenvNoChild).driver.VAppHREF = "vapp-href-a" :=
  create_composition_count_spec dBase cenvNoChild { storageProfiles := [{ name := "sp1" }] }
    { name := "sp1" } [] { HREF := "vapp-href-a", children := [] }
    rfl rfl rfl rfl rfl rfl rfl rfl rfl rfl rfl rfl (by decide)

/-- C9: the post-composition wait polls the VM power state at 5-second
intervals, leaving the loop at the first "POWERED_OFF" observation (the
found poll index satisfies the predicate and no earlier one does, and
the goroutine's signal time is 5·k + 5·j + 15 seconds for status-poll
index k and task-poll index j); if the goroutine has not signalled
within the 15-minute (900 s) deadline, `Create` returns the
deploy-timeout error and performs no rollback: no delete or power-off
task is ever submitted. -/
theorem create_deploy_timeout_spec (d : Driver) (env : CreateEnv) (vi : VdcInfo)
    (sp : StorageRef) (rest : List StorageRef) (vapp : VApp) (c : VMChild) (vm : VMObj)
    (hauth : env.auth = Except.ok ()) (horg : env.org = Except.ok ())
    (hvdc : env.vdc = Except.ok vi) (hnet : env.network = Except.ok ())
    (hcat : env.catalog = Except.ok ()) (hitem : env.catalogItem = Except.ok ())
    (htpl : env.vappTemplate = Except.ok ())
    (hsp : d.StorageProfile = "") (hprof : vi.storageProfiles = sp :: rest)
    (hcs : env.composeSubmit = Except.ok ()) (hcw : env.composeWait = Except.ok ())
    (hv : env.vappByName = Except.ok vapp) (hch : vapp.children = [c])
    (hvm : env.vmRefresh = Except.ok vm)
    (hto : workerSignalTime env.statusAt env.tasksNilAt env.pollFuel = none ∨
           ∃ t, workerSignalTime env.statusAt env.tasksNilAt env.pollFuel = some t ∧
             900 < t) :
    (createDriver d env).result = Except.error "reached timeout while deploying VM"
    ∧ Action.deleteVApp ∉ (createDriver d env).actions
    ∧ Action.powerOff ∉ (createDriver d env).actions
    ∧ (∀ k, firstFrom (fun i => env.statusAt i == "POWERED_OFF") 0 env.pollFuel = some k →
        env.statusAt k = "POWERED_OFF"
        ∧ ∀ j, j < k → env.statusAt j ≠ "POWERED_OFF")
    ∧ (∀ k j, firstFrom (fun i => env.statusAt i == "POWERED_OFF") 0 env.pollFuel = some k →
        firstFrom env.tasksNilAt 0 env.pollFuel = some j →
        workerSignalTime env.statusAt env.tasksNilAt env.pollFuel =
          some (5 * k + 5 * j + 15)) := by
  rw [createDriver_eq_afterProfile d env vi sp rest hauth horg hvdc hnet hcat hitem htpl
      hsp hprof,
    createAfterProfile_timeout d env sp _ vapp c vm hcs hcw hv hch hvm hto]
  refine ⟨rfl, by simp, by simp, ?_, ?_⟩
  · intro k hk
    have h := firstFrom_spec (fun i => env.statusAt i == "POWERED_OFF") env.pollFuel 0 k hk
    constructor
    · simpa using h.1
    · intro j hj
      have hjf := h.2 j (Nat.zero_le j) hj
      simpa using hjf
  · intro k j hk hj
    unfold workerSignalTime
    rw [hk, hj]

/-- C9 witness: with every pre-wait call succeeding and a VM whose
status never reads "POWERED_OFF", `Create` times out and its action
trail holds no delete. -/
theorem create_deploy_timeout_witness :
    (createDriver dBase cenvBase).result =
      Except.error "reached timeout while deploying VM"
    ∧ Action.deleteVApp ∉ (createDriver dBase cenvBase).actions := by
  have h := create_deploy_timeout_spec dBase cenvBase
    { storageProfiles := [{ name := "sp1" }] } { name := "sp1" } [] vappA
    { HREF := "vm-href-a" } vmA
    rfl rfl rfl rfl rfl rfl rfl rfl rfl rfl rfl rfl rfl rfl (Or.inl rfl)
  exact ⟨h.1, h.2.1⟩

end VcdDriver
